import Mathlib

/-!
# Shallow embedding of `src/lib/util.ts` (slp-metadatamaker.js)

This file embeds the SLP OP_RETURN metadata encoders from `src/lib/util.ts`
into Lean and proves the specification claims about them.

Modelling conventions:
* A Node `Buffer` is a `List Nat` of byte values.
* JavaScript strings that are only converted to bytes (`ticker`, `name`,
  `documentUrl`, the fixed literals) are modelled by their UTF-8 byte lists.
* The `string | Buffer` union for `documentHash` / `tokenIdHex` is modelled
  by the tagged type `HashInput`, with the string leg carrying a `List Char`.
* A `BN` (bignumber.js arbitrary-precision number) is modelled as `Rat`:
  `isInteger()` is `den = 1`, `isPositive()` is `¬ q < 0` (bignumber.js
  treats 0 as positive), and `toString(16)` of a non-negative integer is the
  big-endian hex-digit list `hexStr q.num.toNat`.
* A thrown `Error(msg)` is `Except.error msg`; a returned buffer is
  `Except.ok bytes`.
-/

/-- Little-endian 2-byte encoding, as written by `Buffer.writeUInt16LE`. -/
def toLE16 (n : Nat) : List Nat := [n % 256, n / 256 % 256]

/-- Little-endian 4-byte encoding, as written by `Buffer.writeUInt32LE`. -/
def toLE32 (n : Nat) : List Nat :=
  [n % 256, n / 256 % 256, n / 65536 % 256, n / 16777216 % 256]

/-- Embeds `pushdata` (src/lib/util.ts lines 3–21): wrap a buffer in the
minimal script push encoding, branching on the buffer length exactly as the
source's `if`/`else if` chain does. -/
def pushdata (buf : List Nat) : Except String (List Nat) :=
  if buf.length = 0 then .ok [0x4C, 0x00]
  else if buf.length < 0x4E then .ok (buf.length :: buf)
  else if buf.length < 0xFF then .ok (0x4C :: buf.length :: buf)
  else if buf.length < 0xFFFF then .ok (0x4D :: (toLE16 buf.length ++ buf))
  else if buf.length < 0xFFFFFFFF then .ok (0x4E :: (toLE32 buf.length ++ buf))
  else .error "does not support bigger pushes yet"

/-- Little-endian base-16 digit list of `n` (empty for 0); auxiliary for the
embedding of bignumber.js `toString(16)`. -/
def hexDigitsLE (n : Nat) : List Nat :=
  if h : n = 0 then [] else (n % 16) :: hexDigitsLE (n / 16)
termination_by n
decreasing_by exact Nat.div_lt_self (Nat.pos_of_ne_zero h) (by norm_num)

/-- Embeds `bn.toString(16)` for a non-negative integer `bn`: the big-endian
hex-digit list (each entry is a digit value 0–15 standing for one hex
character). JavaScript renders 0 as "0", a single digit. -/
def hexStr (n : Nat) : List Nat :=
  if n = 0 then [0] else (hexDigitsLE n).reverse

/-- Embeds `h.padStart(16, '0')`: left-pad a hex-digit list to width 16. -/
def padStart16 (l : List Nat) : List Nat :=
  List.replicate (16 - l.length) 0 ++ l

/-- Embeds `Buffer.from(hexDigits, 'hex')`: consecutive pairs of hex digits
become one byte each (a trailing unpaired digit is dropped, as in Node). -/
def hexPairsToBytes : List Nat → List Nat
  | [] => []
  | [_] => []
  | a :: b :: rest => (a * 16 + b) :: hexPairsToBytes rest

/-- Embeds `BNToInt64BE` (src/lib/util.ts lines 23–38): validate that the
number is a non-negative integer with at most 16 hex digits, then emit the
8-byte big-endian encoding obtained from the left-padded hex string. -/
def BNToInt64BE (bn : Rat) : Except String (List Nat) :=
  if bn.den ≠ 1 then .error "bn not an integer"
  else if bn < 0 then .error "bn not positive integer"
  else if 16 < (hexStr bn.num.toNat).length then .error "bn outside of range"
  else .ok (hexPairsToBytes (padStart16 (hexStr bn.num.toNat)))

/-- The `string | Buffer` input union for `documentHash` / `tokenIdHex`. -/
inductive HashInput where
  | hex : List Char → HashInput
  | raw : List Nat → HashInput

/-- One character of the regex class `[0-9a-fA-F]`. -/
def isHexDigit (c : Char) : Bool :=
  (decide ('0' ≤ c) && decide (c ≤ '9')) ||
  (decide ('a' ≤ c) && decide (c ≤ 'f')) ||
  (decide ('A' ≤ c) && decide (c ≤ 'F'))

/-- Numeric value of one hex character (0 for characters outside the class;
only applied after the regex check in the source). -/
def hexCharVal (c : Char) : Nat :=
  if '0' ≤ c ∧ c ≤ '9' then c.toNat - 48
  else if 'a' ≤ c ∧ c ≤ 'f' then c.toNat - 87
  else if 'A' ≤ c ∧ c ≤ 'F' then c.toNat - 55
  else 0

/-- Embeds the `documentHash` normalization block of `createOpReturnGenesis`
(src/lib/util.ts lines 54–67): a string must have length 0 or 64 and, when
64, match `/^[0-9a-fA-F]{64}$/`, and is then hex-decoded; a raw buffer must
have length 0 or 32. -/
def normalizeDocumentHash : HashInput → Except String (List Nat)
  | .hex s =>
    if s.length ≠ 0 ∧ s.length ≠ 64 then
      .error "documentHash must be either 0 or 32 hex bytes"
    else if s.length = 64 ∧ ¬ s.all isHexDigit then
      .error "documentHash must be hex"
    else .ok (hexPairsToBytes (s.map hexCharVal))
  | .raw b =>
    if b.length ≠ 0 ∧ b.length ≠ 32 then
      .error "documentHash must be either 0 or 32 hex bytes"
    else .ok b

/-- Embeds the `tokenIdHex` normalization block shared by `createOpReturnMint`
(lines 119–133) and `createOpReturnSend` (lines 163–177): a string must match
`/^[0-9a-fA-F]{64}$/` (i.e. be exactly 64 hex characters) and is hex-decoded;
a raw buffer must have length 32. -/
def normalizeTokenId : HashInput → Except String (List Nat)
  | .hex s =>
    if ¬ (s.length = 64 ∧ s.all isHexDigit) then
      .error "tokenIdHex does not pass regex"
    else if s.length ≠ 64 then
      .error "tokenIdHex must be 32 bytes"
    else .ok (hexPairsToBytes (s.map hexCharVal))
  | .raw b =>
    if b.length ≠ 32 then .error "tokenIdHex must be 32 bytes"
    else .ok b

/-- Embeds the shared `mintBatonVout` range test
(`mintBatonVout !== null && (mintBatonVout < 2 || mintBatonVout > 0xFF)`). -/
def mintBatonVoutBad : Option Int → Bool
  | none => false
  | some v => decide (v < 2) || decide (v > 0xFF)

/-- Byte list pushed for the `mintBatonVout` field:
`Buffer.from(mintBatonVout === null ? [] : [mintBatonVout])`. -/
def mintBatonVoutBytes : Option Int → List Nat
  | none => []
  | some v => [v.toNat]

/-- Encoded form of the `mintBatonVout` field in the output buffer:
`pushdata` of `mintBatonVoutBytes`, i.e. `[0x4C, 0x00]` when the baton is
absent and `[1, v]` when it is present. -/
def mintBatonVoutPush : Option Int → List Nat
  | none => [0x4C, 0x00]
  | some v => [1, v.toNat]

/-- Embeds `createOpReturnGenesis` (src/lib/util.ts lines 40–107). -/
def createOpReturnGenesis (versionType : Nat) (ticker name documentUrl : List Nat)
    (documentHash : HashInput) (decimals : Int) (mintBatonVout : Option Int)
    (quantity : Rat) : Except String (List Nat) :=
  if versionType ∉ ([0x01, 0x41, 0x81] : List Nat) then
    .error "unknown versionType"
  else
    match normalizeDocumentHash documentHash with
    | .error e => .error e
    | .ok dh =>
      if decimals < 0 ∨ decimals > 9 then .error "decimals out of range"
      else if mintBatonVoutBad mintBatonVout then
        .error "mintBatonVout out of range (0x02 < > 0xFF)"
      else if versionType = 0x41 ∧ quantity ≠ 1 then
        .error "quantity must be 1 for NFT1 child genesis"
      else if versionType = 0x41 ∧ decimals ≠ 0 then
        .error "decimals must be 0 for NFT1 child genesis"
      else if versionType = 0x41 ∧ mintBatonVout ≠ none then
        .error "mintBatonVout must be null for NFT1 child genesis"
      else do
        let p0 ← pushdata [83, 76, 80, 0]            -- "SLP\0"
        let p1 ← pushdata [versionType]
        let p2 ← pushdata [71, 69, 78, 69, 83, 73, 83] -- "GENESIS"
        let p3 ← pushdata ticker
        let p4 ← pushdata name
        let p5 ← pushdata documentUrl
        let p6 ← pushdata dh
        let p7 ← pushdata [decimals.toNat]
        let p8 ← pushdata (mintBatonVoutBytes mintBatonVout)
        let q8 ← BNToInt64BE quantity
        let p9 ← pushdata q8
        .ok (0x6A :: (p0 ++ p1 ++ p2 ++ p3 ++ p4 ++ p5 ++ p6 ++ p7 ++ p8 ++ p9))

/-- Embeds `createOpReturnMint` (src/lib/util.ts lines 109–152). -/
def createOpReturnMint (versionType : Nat) (tokenIdHex : HashInput)
    (mintBatonVout : Option Int) (quantity : Rat) : Except String (List Nat) :=
  if versionType ∉ ([0x01, 0x41, 0x81] : List Nat) then
    .error "unknown versionType"
  else
    match normalizeTokenId tokenIdHex with
    | .error e => .error e
    | .ok tid =>
      if mintBatonVoutBad mintBatonVout then
        .error "mintBatonVout out of range (0x02 < > 0xFF)"
      else do
        let p0 ← pushdata [83, 76, 80, 0]            -- "SLP\0"
        let p1 ← pushdata [versionType]
        let p2 ← pushdata [77, 73, 78, 84]           -- "MINT"
        let p3 ← pushdata tid
        let p4 ← pushdata (mintBatonVoutBytes mintBatonVout)
        let q8 ← BNToInt64BE quantity
        let p5 ← pushdata q8
        .ok (0x6A :: (p0 ++ p1 ++ p2 ++ p3 ++ p4 ++ p5))

/-- The per-amount encoder of `createOpReturnSend` (src/lib/util.ts line 192):
`v => pushdata(BNToInt64BE(v))`. -/
def sendAmountPush (v : Rat) : Except String (List Nat) :=
  BNToInt64BE v >>= fun b => pushdata b

/-- Embeds `createOpReturnSend` (src/lib/util.ts lines 154–196). -/
def createOpReturnSend (versionType : Nat) (tokenIdHex : HashInput)
    (slpAmounts : List Rat) : Except String (List Nat) :=
  if versionType ∉ ([0x01, 0x41, 0x81] : List Nat) then
    .error "unknown versionType"
  else
    match normalizeTokenId tokenIdHex with
    | .error e => .error e
    | .ok tid =>
      if slpAmounts.length < 1 then .error "send requires at least one amount"
      else if slpAmounts.length > 19 then .error "too many slp amounts"
      else do
        let p0 ← pushdata [83, 76, 80, 0]            -- "SLP\0"
        let p1 ← pushdata [versionType]
        let p2 ← pushdata [83, 69, 78, 68]           -- "SEND"
        let p3 ← pushdata tid
        let amts ← slpAmounts.mapM sendAmountPush
        .ok (0x6A :: (p0 ++ p1 ++ p2 ++ p3 ++ amts.flatten))

/-- Big-endian value of a byte/digit list in base `b`. -/
def beVal (b : Nat) : List Nat → Nat
  | [] => 0
  | d :: rest => d * b ^ rest.length + beVal b rest

/-! ## Helper lemmas -/

lemma beVal_cons (b d : Nat) (rest : List Nat) :
    beVal b (d :: rest) = d * b ^ rest.length + beVal b rest := rfl

lemma beVal_append (b : Nat) (l1 l2 : List Nat) :
    beVal b (l1 ++ l2) = beVal b l1 * b ^ l2.length + beVal b l2 := by
  induction l1 with
  | nil => simp [beVal]
  | cons d xs ih =>
    simp [beVal, ih, List.length_append, pow_add]
    ring

lemma beVal_reverse (b : Nat) (l : List Nat) :
    beVal b l.reverse = Nat.ofDigits b l := by
  induction l with
  | nil => simp [beVal, Nat.ofDigits_nil]
  | cons x xs ih =>
    rw [List.reverse_cons, beVal_append, Nat.ofDigits_cons, ih]
    simp [beVal]
    ring

lemma ofDigits_hexDigitsLE (n : Nat) : Nat.ofDigits 16 (hexDigitsLE n) = n := by
  induction n using hexDigitsLE.induct with
  | case1 => simp [hexDigitsLE]
  | case2 n h ih =>
    rw [hexDigitsLE]
    simp only [h, dite_false]
    rw [Nat.ofDigits_cons, ih]
    omega

lemma hexDigitsLE_length_le_iff (n k : Nat) :
    (hexDigitsLE n).length ≤ k ↔ n < 16 ^ k := by
  induction n using hexDigitsLE.induct generalizing k with
  | case1 =>
    rw [hexDigitsLE]
    constructor
    · intro _; exact pow_pos (by norm_num) k
    · intro _; simp
  | case2 n h ih =>
    rw [hexDigitsLE]
    simp only [h, dite_false, List.length_cons]
    cases k with
    | zero =>
      rw [pow_zero]
      omega
    | succ k =>
      rw [Nat.succ_le_succ_iff, ih k, pow_succ,
        Nat.div_lt_iff_lt_mul (by norm_num : (0:Nat) < 16)]

lemma beVal_replicate_zero (b k : Nat) : beVal b (List.replicate k 0) = 0 := by
  induction k with
  | zero => rfl
  | succ k ih => simp [List.replicate_succ, beVal, ih]

lemma hexPairsToBytes_length (l : List Nat) :
    (hexPairsToBytes l).length = l.length / 2 := by
  induction l using hexPairsToBytes.induct with
  | case1 => rfl
  | case2 a => simp [hexPairsToBytes]
  | case3 a b rest ih => simp [hexPairsToBytes, ih]; omega

lemma beVal_hexPairsToBytes (l : List Nat) (h : l.length % 2 = 0) :
    beVal 256 (hexPairsToBytes l) = beVal 16 l := by
  induction l using hexPairsToBytes.induct with
  | case1 => rfl
  | case2 a => simp at h
  | case3 a b rest ih =>
    have h2 : rest.length % 2 = 0 := by
      simp only [List.length_cons] at h
      omega
    have hp : (256:Nat) ^ (rest.length / 2) = 16 ^ rest.length := by
      have h256 : (256:Nat) = 16 ^ 2 := by norm_num
      rw [h256, ← pow_mul]
      congr 1
      omega
    rw [hexPairsToBytes, beVal_cons, hexPairsToBytes_length, hp, ih h2,
      beVal_cons, beVal_cons]
    simp only [List.length_cons]
    rw [pow_succ]
    ring

lemma beVal_padStart16 (l : List Nat) :
    beVal 16 (padStart16 l) = beVal 16 l := by
  rw [padStart16, beVal_append, beVal_replicate_zero]
  ring

lemma padStart16_length (l : List Nat) (h : l.length ≤ 16) :
    (padStart16 l).length = 16 := by
  simp [padStart16]
  omega

lemma hexStr_length_le_16_iff (n : Nat) :
    (hexStr n).length ≤ 16 ↔ n < 2 ^ 64 := by
  rw [hexStr]
  split_ifs with h0
  · subst h0; norm_num
  · rw [List.length_reverse, hexDigitsLE_length_le_iff]
    norm_num

lemma beVal_hexStr (n : Nat) : beVal 16 (hexStr n) = n := by
  rw [hexStr]
  split_ifs with h0
  · subst h0; rfl
  · rw [beVal_reverse, ofDigits_hexDigitsLE]

lemma exceptBind_eq_ok {α β : Type} (x : Except String α) (f : α → Except String β)
    (b : β) : (x >>= f) = Except.ok b ↔ ∃ a, x = Except.ok a ∧ f a = Except.ok b := by
  cases x <;> simp [Bind.bind, Except.bind]

lemma int64Bytes_spec (n : Nat) (h : n < 2 ^ 64) :
    (hexPairsToBytes (padStart16 (hexStr n))).length = 8 ∧
    beVal 256 (hexPairsToBytes (padStart16 (hexStr n))) = n := by
  have hlen : (hexStr n).length ≤ 16 := (hexStr_length_le_16_iff n).2 h
  have hps : (padStart16 (hexStr n)).length = 16 := padStart16_length _ hlen
  constructor
  · rw [hexPairsToBytes_length, hps]
  · rw [beVal_hexPairsToBytes _ (by rw [hps]), beVal_padStart16, beVal_hexStr]

lemma BNToInt64BE_ok (bn : Rat) (h1 : bn.den = 1) (h2 : 0 ≤ bn)
    (h3 : bn.num < 2 ^ 64) :
    BNToInt64BE bn = .ok (hexPairsToBytes (padStart16 (hexStr bn.num.toNat))) := by
  have hn : bn.num.toNat < 2 ^ 64 := by omega
  rw [BNToInt64BE, if_neg (by simp [h1]), if_neg (not_lt.2 h2),
    if_neg (by simpa [not_lt] using (hexStr_length_le_16_iff bn.num.toNat).2 hn)]

lemma BNToInt64BE_err_notInt (bn : Rat) (h : bn.den ≠ 1) :
    BNToInt64BE bn = .error "bn not an integer" := by
  rw [BNToInt64BE, if_pos h]

lemma BNToInt64BE_err_neg (bn : Rat) (h1 : bn.den = 1) (h2 : bn < 0) :
    BNToInt64BE bn = .error "bn not positive integer" := by
  rw [BNToInt64BE, if_neg (by simp [h1]), if_pos h2]

lemma BNToInt64BE_err_range (bn : Rat) (h1 : bn.den = 1) (h2 : 0 ≤ bn)
    (h3 : 2 ^ 64 ≤ bn.num) :
    BNToInt64BE bn = .error "bn outside of range" := by
  have hn : ¬ bn.num.toNat < 2 ^ 64 := by omega
  rw [BNToInt64BE, if_neg (by simp [h1]), if_neg (not_lt.2 h2),
    if_pos (by have := (hexStr_length_le_16_iff bn.num.toNat).1; omega)]

lemma BNToInt64BE_length (bn : Rat) (b : List Nat) (h : BNToInt64BE bn = .ok b) :
    b.length = 8 := by
  rw [BNToInt64BE] at h
  split_ifs at h with h1 h2 h3
  all_goals first
    | (simp only [Except.ok.injEq] at h
       subst h
       rw [hexPairsToBytes_length, padStart16_length _ (by omega)])
    | simp at h


lemma pushdata_empty : pushdata [] = .ok [0x4C, 0x00] := rfl

lemma pushdata_small (l : List Nat) (h0 : l.length ≠ 0) (h1 : l.length < 0x4E) :
    pushdata l = .ok (l.length :: l) := by
  rw [pushdata, if_neg h0, if_pos h1]

lemma pushdata_mid (l : List Nat) (h0 : 0x4E ≤ l.length) (h1 : l.length < 0xFF) :
    pushdata l = .ok (0x4C :: l.length :: l) := by
  rw [pushdata, if_neg (by omega), if_neg (by omega), if_pos h1]

lemma pushdata_err_iff (l : List Nat) :
    (∃ e, pushdata l = .error e) ↔ 0xFFFFFFFF ≤ l.length := by
  rw [pushdata]
  split_ifs <;> simp <;> omega

lemma pushdata_ok_exists (l : List Nat) (h : l.length < 0xFFFFFFFF) :
    ∃ r, pushdata l = .ok r := by
  rw [pushdata]
  split_ifs with g1 g2 g3 g4 g5 <;> first | exact ⟨_, rfl⟩ | omega

/-! ## Claims about `pushdata` and `BNToInt64BE` -/

/-- C4: `pushdata` returns exactly `[0x4C, 0x00]` for the empty buffer; a single
byte holding the literal length followed by `B` when `1 ≤ length(B) ≤ 77`; and
the marker byte `0x4C` followed by a one-byte length and `B` when
`78 ≤ length(B) ≤ 254`. -/
theorem c4_pushdata_small_ranges (B : List Nat) :
    (B.length = 0 → pushdata B = .ok [0x4C, 0x00]) ∧
    (1 ≤ B.length ∧ B.length ≤ 77 → pushdata B = .ok (B.length :: B)) ∧
    (78 ≤ B.length ∧ B.length ≤ 254 → pushdata B = .ok (0x4C :: B.length :: B)) := by
  refine ⟨?_, ?_, ?_⟩
  · intro h
    rw [pushdata, if_pos h]
  · intro ⟨h1, h2⟩
    exact pushdata_small B (by omega) (by omega)
  · intro ⟨h1, h2⟩
    exact pushdata_mid B (by omega) (by omega)

/-- Witness for C4 at concrete buffers of length 0, 3 and 100. -/
theorem c4_pushdata_small_ranges_witness :
    pushdata [] = .ok [0x4C, 0x00] ∧
    pushdata [7, 7, 7] = .ok [3, 7, 7, 7] ∧
    pushdata (List.replicate 100 7) = .ok (0x4C :: 100 :: List.replicate 100 7) := by
  refine ⟨(c4_pushdata_small_ranges []).1 rfl, ?_, ?_⟩
  · have h := (c4_pushdata_small_ranges [7, 7, 7]).2.1 (by norm_num)
    simpa using h
  · have h := (c4_pushdata_small_ranges (List.replicate 100 7)).2.2
      (by rw [List.length_replicate]; norm_num)
    rw [List.length_replicate] at h
    exact h

/-- C5 counterexample: a buffer of length 77 satisfies `0x4C ≤ 77 < 0xFF`, but
`pushdata` encodes it with a bare length byte `[77]`, not as
`[0x4C, 77] ++ B` as the claim states. -/
theorem c5_counterexample :
    0x4C ≤ (List.replicate 77 (1:Nat)).length ∧
    (List.replicate 77 (1:Nat)).length < 0xFF ∧
    pushdata (List.replicate 77 (1:Nat)) ≠
      .ok (0x4C :: (List.replicate 77 (1:Nat)).length :: List.replicate 77 (1:Nat)) := by
  have hl : (List.replicate 77 (1:Nat)).length = 77 := List.length_replicate 77 1
  refine ⟨by rw [hl]; norm_num, by rw [hl]; norm_num, ?_⟩
  rw [pushdata_small _ (by rw [hl]; norm_num) (by rw [hl]; norm_num), hl]
  intro hc
  simp only [Except.ok.injEq, List.cons.injEq] at hc
  exact absurd hc.1 (by norm_num)

/-- C5 amended: for every buffer `B` with `0x4E ≤ length(B) < 0xFF`,
`pushdata B` returns exactly `[0x4C, length(B)] ++ B`. -/
theorem c5_amended (B : List Nat) (h1 : 0x4E ≤ B.length) (h2 : B.length < 0xFF) :
    pushdata B = .ok (0x4C :: B.length :: B) :=
  pushdata_mid B h1 h2

/-- Witness for the amended C5 at a concrete buffer of length 200. -/
theorem c5_amended_witness :
    pushdata (List.replicate 200 5) = .ok (0x4C :: 200 :: List.replicate 200 5) := by
  have h := c5_amended (List.replicate 200 5)
    (by rw [List.length_replicate]; norm_num) (by rw [List.length_replicate]; norm_num)
  rw [List.length_replicate] at h
  exact h

/-- C2 counterexample: a buffer of length 65535 is in the claim's 2-byte-length
range but is encoded with the 4-byte marker `0x4E`; and a buffer of length
4294967295 is in the claim's 4-byte-length success range (and below the claim's
failure threshold 4294967296) but `pushdata` fails on it. -/
theorem c2_counterexample :
    (255 ≤ (List.replicate 65535 (0:Nat)).length ∧
      (List.replicate 65535 (0:Nat)).length ≤ 65535 ∧
      pushdata (List.replicate 65535 (0:Nat)) ≠
        .ok (0x4D :: (toLE16 (List.replicate 65535 (0:Nat)).length ++
          List.replicate 65535 (0:Nat)))) ∧
    (65536 ≤ (List.replicate 4294967295 (0:Nat)).length ∧
      (List.replicate 4294967295 (0:Nat)).length ≤ 4294967295 ∧
      (pushdata (List.replicate 4294967295 (0:Nat))).isOk = false) := by
  have hl : (List.replicate 65535 (0:Nat)).length = 65535 :=
    List.length_replicate 65535 0
  have hl2 : (List.replicate 4294967295 (0:Nat)).length = 4294967295 :=
    List.length_replicate 4294967295 0
  constructor
  · refine ⟨by rw [hl]; norm_num, by rw [hl], ?_⟩
    rw [pushdata, hl, if_neg (by norm_num), if_neg (by norm_num),
      if_neg (by norm_num), if_neg (by norm_num), if_pos (by norm_num)]
    intro hc
    simp only [Except.ok.injEq, List.cons.injEq] at hc
    exact absurd hc.1 (by norm_num)
  · refine ⟨by rw [hl2]; norm_num, by rw [hl2], ?_⟩
    rw [pushdata, hl2, if_neg (by norm_num), if_neg (by norm_num),
      if_neg (by norm_num), if_neg (by norm_num), if_neg (by norm_num)]
    rfl

/-- C2 amended: for every buffer `B`, if `255 ≤ length(B) ≤ 65534` then
`pushdata B` is the marker `0x4D` plus the 2-byte little-endian length plus
`B`; if `65535 ≤ length(B) ≤ 4294967294` then it is the marker `0x4E` plus the
4-byte little-endian length plus `B`; and `pushdata B` fails with the
unsupported-length error if and only if `length(B) ≥ 4294967295`. -/
theorem c2_amended (B : List Nat) :
    (255 ≤ B.length ∧ B.length ≤ 65534 →
      pushdata B = .ok (0x4D :: (toLE16 B.length ++ B))) ∧
    (65535 ≤ B.length ∧ B.length ≤ 4294967294 →
      pushdata B = .ok (0x4E :: (toLE32 B.length ++ B))) ∧
    ((∃ e, pushdata B = .error e) ↔ 4294967295 ≤ B.length) := by
  refine ⟨?_, ?_, pushdata_err_iff B⟩
  · intro ⟨h1, h2⟩
    rw [pushdata, if_neg (by omega), if_neg (by omega), if_neg (by omega),
      if_pos (by omega)]
  · intro ⟨h1, h2⟩
    rw [pushdata, if_neg (by omega), if_neg (by omega), if_neg (by omega),
      if_neg (by omega), if_pos (by omega)]

/-- Witness for the amended C2 at concrete buffers of length 300 and 65535. -/
theorem c2_amended_witness :
    pushdata (List.replicate 300 (0:Nat)) =
      .ok (0x4D :: ([44, 1] ++ List.replicate 300 0)) ∧
    pushdata (List.replicate 65535 (0:Nat)) =
      .ok (0x4E :: ([255, 255, 0, 0] ++ List.replicate 65535 0)) := by
  constructor
  · have h := (c2_amended (List.replicate 300 0)).1
      (by rw [List.length_replicate]; norm_num)
    rw [List.length_replicate, show toLE16 300 = [44, 1] from by decide] at h
    exact h
  · have h := (c2_amended (List.replicate 65535 0)).2.1
      (by rw [List.length_replicate]; norm_num)
    rw [List.length_replicate, show toLE32 65535 = [255, 255, 0, 0] from by decide] at h
    exact h

/-- C3: for every `bn` that is an integer with `0 ≤ bn ≤ 2^64 − 1`,
`BNToInt64BE bn` returns exactly 8 bytes whose big-endian interpretation is
`bn`; it fails with the not-an-integer error when `bn` has a fractional part,
with the not-positive error when `bn` is a negative integer, and with the
out-of-range error when `bn` is an integer greater than `2^64 − 1`. -/
theorem c3_BNToInt64BE (bn : Rat) :
    (bn.den = 1 ∧ 0 ≤ bn ∧ bn.num ≤ 2 ^ 64 - 1 →
      ∃ b, BNToInt64BE bn = .ok b ∧ b.length = 8 ∧ (beVal 256 b : Int) = bn.num) ∧
    (bn.den ≠ 1 → BNToInt64BE bn = .error "bn not an integer") ∧
    (bn.den = 1 ∧ bn < 0 → BNToInt64BE bn = .error "bn not positive integer") ∧
    (bn.den = 1 ∧ 0 ≤ bn ∧ 2 ^ 64 - 1 < bn.num →
      BNToInt64BE bn = .error "bn outside of range") := by
  refine ⟨?_, BNToInt64BE_err_notInt bn, fun ⟨h1, h2⟩ => BNToInt64BE_err_neg bn h1 h2,
    fun ⟨h1, h2, h3⟩ => BNToInt64BE_err_range bn h1 h2 (by omega)⟩
  intro ⟨h1, h2, h3⟩
  have hnum : 0 ≤ bn.num := Rat.num_nonneg.2 h2
  have hlt : bn.num.toNat < 2 ^ 64 := by omega
  refine ⟨_, BNToInt64BE_ok bn h1 h2 (by omega), (int64Bytes_spec _ hlt).1, ?_⟩
  rw [(int64Bytes_spec _ hlt).2]
  omega

/-- Witness for C3: `BNToInt64BE` on the integer 1000, on 1/2, on −5 and on
`2^64` behaves as the claim states. -/
theorem c3_BNToInt64BE_witness :
    (∃ b, BNToInt64BE 1000 = .ok b ∧ b.length = 8 ∧
      (beVal 256 b : Int) = (1000 : Rat).num) ∧
    BNToInt64BE (1 / 2) = .error "bn not an integer" ∧
    BNToInt64BE (-5) = .error "bn not positive integer" ∧
    BNToInt64BE 18446744073709551616 = .error "bn outside of range" := by
  refine ⟨(c3_BNToInt64BE 1000).1 ⟨by decide, by norm_num, by decide⟩,
    (c3_BNToInt64BE (1 / 2)).2.1 (by norm_num),
    (c3_BNToInt64BE (-5)).2.2.1 ⟨by decide, by norm_num⟩,
    (c3_BNToInt64BE 18446744073709551616).2.2.2 ⟨by decide, by norm_num, by decide⟩⟩

/-! ## Concrete-evaluation helpers -/

lemma hexDigitsLE_zero : hexDigitsLE 0 = [] := by
  rw [hexDigitsLE]
  rfl

lemma hexDigitsLE_pos (n : Nat) (h : ¬ n = 0) :
    hexDigitsLE n = n % 16 :: hexDigitsLE (n / 16) := by
  rw [hexDigitsLE, dif_neg h]

lemma BNToInt64BE_1000 : BNToInt64BE 1000 = .ok [0, 0, 0, 0, 0, 0, 3, 232] := by
  rw [BNToInt64BE, if_neg (by decide), if_neg (by decide),
    show (1000:ℚ).num.toNat = 1000 from by decide]
  rw [show hexStr 1000 = [3, 14, 8] from by
    norm_num [hexStr, hexDigitsLE_pos, hexDigitsLE_zero]]
  norm_num [padStart16, hexPairsToBytes]

/-! ## Claims about the message encoders -/

/-- C1: the concrete call
`createOpReturnGenesis(0x01, "TOK", "Token", "", "", 2, 2, 1000)` produces the
byte-exact buffer `0x6A` ∥ push("SLP\0") ∥ push(0x01) ∥ push("GENESIS") ∥
push("TOK") ∥ push("Token") ∥ push("") ∥ push("") ∥ push(2) ∥ push(2) ∥
push(quantity), whose final 8 bytes are `00 00 00 00 00 00 03 E8`. -/
theorem c1_genesis_concrete :
    createOpReturnGenesis 0x01 [84, 79, 75] [84, 111, 107, 101, 110] []
      (.hex []) 2 (some 2) 1000 =
    .ok ([0x6A] ++
      ([4] ++ [83, 76, 80, 0]) ++
      ([1] ++ [0x01]) ++
      ([7] ++ [71, 69, 78, 69, 83, 73, 83]) ++
      ([3] ++ [84, 79, 75]) ++
      ([5] ++ [84, 111, 107, 101, 110]) ++
      [0x4C, 0x00] ++
      [0x4C, 0x00] ++
      ([1] ++ [2]) ++
      ([1] ++ [2]) ++
      ([8] ++ [0, 0, 0, 0, 0, 0, 3, 232])) := by
  rw [createOpReturnGenesis]
  norm_num [normalizeDocumentHash, hexPairsToBytes, mintBatonVoutBad,
    mintBatonVoutBytes, pushdata, BNToInt64BE_1000, Bind.bind, Except.bind,
    show Int.toNat 2 = 2 from rfl]

/-! ## Helpers for the message-encoder claims -/

lemma pushdata_SLP : pushdata [83, 76, 80, 0] = .ok [4, 83, 76, 80, 0] := rfl

lemma pushdata_GENESIS :
    pushdata [71, 69, 78, 69, 83, 73, 83] = .ok [7, 71, 69, 78, 69, 83, 73, 83] := rfl

lemma pushdata_MINT : pushdata [77, 73, 78, 84] = .ok [4, 77, 73, 78, 84] := rfl

lemma pushdata_SEND : pushdata [83, 69, 78, 68] = .ok [4, 83, 69, 78, 68] := rfl

lemma pushdata_one (b : Nat) : pushdata [b] = .ok [1, b] := rfl

lemma pushdata_mbv (mbv : Option Int) :
    pushdata (mintBatonVoutBytes mbv) = .ok (mintBatonVoutPush mbv) := by
  cases mbv <;> rfl

lemma BNToInt64BE_one : BNToInt64BE 1 = .ok [0, 0, 0, 0, 0, 0, 0, 1] := by
  rw [BNToInt64BE, if_neg (by decide), if_neg (by decide),
    show (1:ℚ).num.toNat = 1 from by decide]
  rw [show hexStr 1 = [1] from by
    norm_num [hexStr, hexDigitsLE_pos, hexDigitsLE_zero]]
  norm_num [padStart16, hexPairsToBytes]

lemma mintBatonVoutBad_false_iff (mbv : Option Int) :
    mintBatonVoutBad mbv = false ↔ ∀ v, mbv = some v → 2 ≤ v ∧ v ≤ 255 := by
  cases mbv with
  | none => simp [mintBatonVoutBad]
  | some v =>
    simp [mintBatonVoutBad]
    try omega

lemma normalizeDocumentHash_length (dh : HashInput) (b : List Nat)
    (h : normalizeDocumentHash dh = .ok b) : b.length = 0 ∨ b.length = 32 := by
  cases dh with
  | hex s =>
    simp only [normalizeDocumentHash] at h
    split_ifs at h with h1 h2
    · simp only [Except.ok.injEq] at h
      subst h
      rw [hexPairsToBytes_length, List.length_map]
      push_neg at h1
      rcases em (s.length = 0) with h0 | h0
      · left; omega
      · right; have := h1 h0; omega
  | raw b2 =>
    simp only [normalizeDocumentHash] at h
    split_ifs at h with h1
    · simp only [Except.ok.injEq] at h
      subst h
      push_neg at h1
      rcases em (b2.length = 0) with h0 | h0
      · left; exact h0
      · right; exact h1 h0

lemma normalizeTokenId_length (tid : HashInput) (b : List Nat)
    (h : normalizeTokenId tid = .ok b) : b.length = 32 := by
  cases tid with
  | hex s =>
    simp only [normalizeTokenId] at h
    split_ifs at h with h1 h2
    · simp only [Except.ok.injEq] at h
      subst h
      rw [hexPairsToBytes_length, List.length_map]
      push_neg at h1
      omega
  | raw b2 =>
    simp only [normalizeTokenId] at h
    split_ifs at h with h1
    · simp only [Except.ok.injEq] at h
      subst h
      omega

lemma createOpReturnGenesis_ok_eq
    (vt : Nat) (ticker nm url : List Nat) (dh : HashInput) (dhb : List Nat)
    (dec : Int) (mbv : Option Int) (q : Rat) (pt pn pu ph qb pq : List Nat)
    (hvt : vt ∈ ([0x01, 0x41, 0x81] : List Nat))
    (hdh : normalizeDocumentHash dh = .ok dhb)
    (hdec : ¬ (dec < 0 ∨ dec > 9))
    (hmbv : mintBatonVoutBad mbv = false)
    (hc1 : ¬ (vt = 0x41 ∧ q ≠ 1)) (hc2 : ¬ (vt = 0x41 ∧ dec ≠ 0))
    (hc3 : ¬ (vt = 0x41 ∧ mbv ≠ none))
    (hpt : pushdata ticker = .ok pt) (hpn : pushdata nm = .ok pn)
    (hpu : pushdata url = .ok pu) (hph : pushdata dhb = .ok ph)
    (hq : BNToInt64BE q = .ok qb) (hpq : pushdata qb = .ok pq) :
    createOpReturnGenesis vt ticker nm url dh dec mbv q =
      .ok (0x6A :: ([4, 83, 76, 80, 0] ++ [1, vt] ++
        [7, 71, 69, 78, 69, 83, 73, 83] ++ pt ++ pn ++ pu ++ ph ++
        [1, dec.toNat] ++ mintBatonVoutPush mbv ++ pq)) := by
  rw [createOpReturnGenesis, if_neg (by simp only [not_not]; exact hvt)]
  simp only [hdh]
  rw [if_neg hdec, if_neg (by rw [hmbv]; exact Bool.false_ne_true),
    if_neg hc1, if_neg hc2, if_neg hc3]
  simp only [Bind.bind, Except.bind, pushdata_SLP, pushdata_one,
    pushdata_GENESIS, hpt, hpn, hpu, hph, pushdata_mbv, hq, hpq]

lemma createOpReturnMint_ok_eq
    (vt : Nat) (tid : HashInput) (tb : List Nat) (mbv : Option Int) (q : Rat)
    (ptb qb pq : List Nat)
    (hvt : vt ∈ ([0x01, 0x41, 0x81] : List Nat))
    (htid : normalizeTokenId tid = .ok tb)
    (hmbv : mintBatonVoutBad mbv = false)
    (hptb : pushdata tb = .ok ptb)
    (hq : BNToInt64BE q = .ok qb) (hpq : pushdata qb = .ok pq) :
    createOpReturnMint vt tid mbv q =
      .ok (0x6A :: ([4, 83, 76, 80, 0] ++ [1, vt] ++ [4, 77, 73, 78, 84] ++
        ptb ++ mintBatonVoutPush mbv ++ pq)) := by
  rw [createOpReturnMint, if_neg (by simp only [not_not]; exact hvt)]
  simp only [htid]
  rw [if_neg (by rw [hmbv]; exact Bool.false_ne_true)]
  simp only [Bind.bind, Except.bind, pushdata_SLP, pushdata_one, pushdata_MINT,
    hptb, pushdata_mbv, hq, hpq]

lemma amountsMapM_ok (amts : List Rat)
    (h : ∀ a ∈ amts, a.den = 1 ∧ 0 ≤ a ∧ a.num < 2 ^ 64) :
    ∃ l, amts.mapM sendAmountPush = .ok l := by
  induction amts with
  | nil => exact ⟨[], rfl⟩
  | cons a tl ih =>
    obtain ⟨l, hl⟩ := ih (fun x hx => h x (List.mem_cons_of_mem _ hx))
    obtain ⟨h1, h2, h3⟩ := h a (List.mem_cons_self _ _)
    have hq := BNToInt64BE_ok a h1 h2 h3
    have hlen : (hexPairsToBytes (padStart16 (hexStr a.num.toNat))).length = 8 :=
      (int64Bytes_spec _ (by omega)).1
    obtain ⟨pb, hpb⟩ := pushdata_ok_exists _ (by rw [hlen]; norm_num)
    refine ⟨pb :: l, ?_⟩
    rw [List.mapM_cons, hl]
    simp only [sendAmountPush, Bind.bind, Except.bind, hq, hpb, pure, Except.pure]

lemma createOpReturnSend_ok_eq
    (vt : Nat) (tid : HashInput) (tb : List Nat) (amts : List Rat)
    (ptb : List Nat) (l : List (List Nat))
    (hvt : vt ∈ ([0x01, 0x41, 0x81] : List Nat))
    (htid : normalizeTokenId tid = .ok tb)
    (hlen1 : 1 ≤ amts.length) (hlen2 : amts.length ≤ 19)
    (hptb : pushdata tb = .ok ptb)
    (hm : amts.mapM sendAmountPush = .ok l) :
    createOpReturnSend vt tid amts =
      .ok (0x6A :: ([4, 83, 76, 80, 0] ++ [1, vt] ++ [4, 83, 69, 78, 68] ++
        ptb ++ l.flatten)) := by
  rw [createOpReturnSend, if_neg (by simp only [not_not]; exact hvt)]
  simp only [htid]
  rw [if_neg (by omega), if_neg (by omega)]
  simp only [Bind.bind, Except.bind, pushdata_SLP, pushdata_one, pushdata_SEND,
    hptb, hm]

lemma genesisHeader_of_ok (vt : Nat) (ticker nm url : List Nat) (dh : HashInput)
    (dec : Int) (mbv : Option Int) (q : Rat) (out : List Nat)
    (h : createOpReturnGenesis vt ticker nm url dh dec mbv q = .ok out) :
    out.take 7 = [0x6A, 4, 83, 76, 80, 0, 1] ∧ out.get? 7 = some vt := by
  rw [createOpReturnGenesis] at h
  by_cases hvt : vt ∉ ([0x01, 0x41, 0x81] : List Nat)
  · rw [if_pos hvt] at h
    exact absurd h (by simp)
  rw [if_neg hvt] at h
  rcases hN : normalizeDocumentHash dh with e | dhb
  · rw [hN] at h
    exact absurd h (by simp)
  simp only [hN] at h
  split_ifs at h with h1 h2 h3 h4 h5
  simp only [Bind.bind, Except.bind, pushdata_SLP, pushdata_one,
    pushdata_GENESIS, pushdata_mbv] at h
  rcases hPT : pushdata ticker with e | pt <;> simp only [hPT] at h
  · exact absurd h (by simp)
  rcases hPN : pushdata nm with e | pn <;> simp only [hPN] at h
  · exact absurd h (by simp)
  rcases hPU : pushdata url with e | pu <;> simp only [hPU] at h
  · exact absurd h (by simp)
  rcases hPH : pushdata dhb with e | ph <;> simp only [hPH] at h
  · exact absurd h (by simp)
  rcases hQ : BNToInt64BE q with e | qb <;> simp only [hQ] at h
  · exact absurd h (by simp)
  rcases hPQ : pushdata qb with e | pq <;> simp only [hPQ] at h
  · exact absurd h (by simp)
  simp only [Except.ok.injEq] at h
  subst h
  constructor
  · simp [List.cons_append, List.nil_append]
  · simp [List.cons_append, List.nil_append]

lemma mintHeader_of_ok (vt : Nat) (tid : HashInput) (mbv : Option Int)
    (q : Rat) (out : List Nat)
    (h : createOpReturnMint vt tid mbv q = .ok out) :
    out.take 7 = [0x6A, 4, 83, 76, 80, 0, 1] ∧ out.get? 7 = some vt := by
  rw [createOpReturnMint] at h
  by_cases hvt : vt ∉ ([0x01, 0x41, 0x81] : List Nat)
  · rw [if_pos hvt] at h
    exact absurd h (by simp)
  rw [if_neg hvt] at h
  rcases hN : normalizeTokenId tid with e | tb
  · rw [hN] at h
    exact absurd h (by simp)
  simp only [hN] at h
  split_ifs at h with h1
  simp only [Bind.bind, Except.bind, pushdata_SLP, pushdata_one, pushdata_MINT,
    pushdata_mbv] at h
  rcases hPT : pushdata tb with e | ptb <;> simp only [hPT] at h
  · exact absurd h (by simp)
  rcases hQ : BNToInt64BE q with e | qb <;> simp only [hQ] at h
  · exact absurd h (by simp)
  rcases hPQ : pushdata qb with e | pq <;> simp only [hPQ] at h
  · exact absurd h (by simp)
  simp only [Except.ok.injEq] at h
  subst h
  constructor
  · simp [List.cons_append, List.nil_append]
  · simp [List.cons_append, List.nil_append]

lemma sendHeader_of_ok (vt : Nat) (tid : HashInput) (amts : List Rat)
    (out : List Nat)
    (h : createOpReturnSend vt tid amts = .ok out) :
    out.take 7 = [0x6A, 4, 83, 76, 80, 0, 1] ∧ out.get? 7 = some vt := by
  rw [createOpReturnSend] at h
  by_cases hvt : vt ∉ ([0x01, 0x41, 0x81] : List Nat)
  · rw [if_pos hvt] at h
    exact absurd h (by simp)
  rw [if_neg hvt] at h
  rcases hN : normalizeTokenId tid with e | tb
  · rw [hN] at h
    exact absurd h (by simp)
  simp only [hN] at h
  split_ifs at h with h1 h2
  simp only [Bind.bind, Except.bind, pushdata_SLP, pushdata_one,
    pushdata_SEND] at h
  rcases hPT : pushdata tb with e | ptb <;> simp only [hPT] at h
  · exact absurd h (by simp)
  rcases hM : amts.mapM sendAmountPush with e | l <;> simp only [hM] at h
  · exact absurd h (by simp)
  simp only [Except.ok.injEq] at h
  subst h
  constructor
  · simp [List.cons_append, List.nil_append]
  · simp [List.cons_append, List.nil_append]

/-- C6: with `versionType = 0x41` and all other fields valid,
`createOpReturnGenesis` fails with one of the child-genesis errors whenever
`quantity ≠ 1` or `decimals ≠ 0` or `mintBatonVout` is present, and succeeds
when `quantity = 1`, `decimals = 0` and `mintBatonVout` is absent. -/
theorem c6_child_genesis (ticker nm url : List Nat) (dh : HashInput)
    (dhb : List Nat) (dec : Int) (mbv : Option Int) (q : Rat)
    (hdh : normalizeDocumentHash dh = .ok dhb)
    (hdec : 0 ≤ dec ∧ dec ≤ 9)
    (hmbv : ∀ v, mbv = some v → 2 ≤ v ∧ v ≤ 255)
    (ht : ticker.length < 0xFFFFFFFF) (hn : nm.length < 0xFFFFFFFF)
    (hu : url.length < 0xFFFFFFFF) :
    ((q ≠ 1 ∨ dec ≠ 0 ∨ mbv ≠ none) →
      ∃ e, createOpReturnGenesis 0x41 ticker nm url dh dec mbv q = .error e ∧
        (e = "quantity must be 1 for NFT1 child genesis" ∨
         e = "decimals must be 0 for NFT1 child genesis" ∨
         e = "mintBatonVout must be null for NFT1 child genesis")) ∧
    ((q = 1 ∧ dec = 0 ∧ mbv = none) →
      (createOpReturnGenesis 0x41 ticker nm url dh dec mbv q).isOk = true) := by
  have hmbvF : mintBatonVoutBad mbv = false := (mintBatonVoutBad_false_iff mbv).2 hmbv
  constructor
  · intro hbad
    rw [createOpReturnGenesis, if_neg (by decide)]
    simp only [hdh]
    rw [if_neg (by omega), if_neg (by rw [hmbvF]; exact Bool.false_ne_true)]
    by_cases hq1 : q = 1
    · by_cases hd0 : dec = 0
      · have hmbvne : mbv ≠ none := by
          rcases hbad with hb | hb | hb
          · exact absurd hq1 hb
          · exact absurd hd0 hb
          · exact hb
        rw [if_neg (by simp [hq1]), if_neg (by simp [hd0]),
          if_pos ⟨by trivial, hmbvne⟩]
        exact ⟨_, rfl, Or.inr (Or.inr rfl)⟩
      · rw [if_neg (by simp [hq1]), if_pos ⟨by trivial, hd0⟩]
        exact ⟨_, rfl, Or.inr (Or.inl rfl)⟩
    · rw [if_pos ⟨by trivial, hq1⟩]
      exact ⟨_, rfl, Or.inl rfl⟩
  · intro ⟨hq1, hd0, hmn⟩
    subst hq1
    subst hd0
    subst hmn
    obtain ⟨pt, hpt⟩ := pushdata_ok_exists ticker ht
    obtain ⟨pn, hpn⟩ := pushdata_ok_exists nm hn
    obtain ⟨pu, hpu⟩ := pushdata_ok_exists url hu
    have hdhl := normalizeDocumentHash_length dh dhb hdh
    obtain ⟨ph, hph⟩ := pushdata_ok_exists dhb (by omega)
    obtain ⟨pq, hpq⟩ := pushdata_ok_exists [0, 0, 0, 0, 0, 0, 0, 1] (by norm_num)
    rw [createOpReturnGenesis_ok_eq 0x41 ticker nm url dh dhb 0 none 1
      pt pn pu ph _ pq (by decide) hdh (by norm_num) rfl (by simp) (by simp)
      (by simp) hpt hpn hpu hph BNToInt64BE_one hpq]
    rfl

/-- Witness for C6 at a concrete child genesis: quantity 2 fails, the
canonical child parameters succeed. -/
theorem c6_child_genesis_witness :
    (∃ e, createOpReturnGenesis 0x41 [84] [] [] (.raw []) 0 none 2 = .error e ∧
      (e = "quantity must be 1 for NFT1 child genesis" ∨
       e = "decimals must be 0 for NFT1 child genesis" ∨
       e = "mintBatonVout must be null for NFT1 child genesis")) ∧
    (createOpReturnGenesis 0x41 [84] [] [] (.raw []) 0 none 1).isOk = true := by
  constructor
  · exact (c6_child_genesis [84] [] [] (.raw []) [] 0 none 2 rfl
      (by norm_num) (by simp) (by norm_num) (by norm_num) (by norm_num)).1
      (Or.inl (by norm_num))
  · exact (c6_child_genesis [84] [] [] (.raw []) [] 0 none 1 rfl
      (by norm_num) (by simp) (by norm_num) (by norm_num) (by norm_num)).2
      ⟨rfl, rfl, rfl⟩

/-- C7: with all other fields valid and every amount an integer in
[0, 2^64 − 1], `createOpReturnSend` fails with the too-few-amounts error on an
empty amounts sequence, fails with the too-many-amounts error on more than 19
amounts, and succeeds for every length between 1 and 19. -/
theorem c7_send_amount_count (vt : Nat) (tid : HashInput) (tb : List Nat)
    (amts : List Rat)
    (hvt : vt ∈ ([0x01, 0x41, 0x81] : List Nat))
    (htid : normalizeTokenId tid = .ok tb)
    (hamts : ∀ a ∈ amts, a.den = 1 ∧ 0 ≤ a ∧ a.num ≤ 2 ^ 64 - 1) :
    (amts.length = 0 →
      createOpReturnSend vt tid amts = .error "send requires at least one amount") ∧
    (19 < amts.length →
      createOpReturnSend vt tid amts = .error "too many slp amounts") ∧
    (1 ≤ amts.length ∧ amts.length ≤ 19 →
      (createOpReturnSend vt tid amts).isOk = true) := by
  refine ⟨?_, ?_, ?_⟩
  · intro h0
    rw [createOpReturnSend, if_neg (by simp only [not_not]; exact hvt)]
    simp only [htid]
    rw [if_pos (by omega)]
  · intro h19
    rw [createOpReturnSend, if_neg (by simp only [not_not]; exact hvt)]
    simp only [htid]
    rw [if_neg (by omega), if_pos (by omega)]
  · intro ⟨hl1, hl2⟩
    obtain ⟨ptb, hptb⟩ := pushdata_ok_exists tb
      (by have := normalizeTokenId_length tid tb htid; omega)
    obtain ⟨l, hm⟩ := amountsMapM_ok amts
      (fun a ha => ⟨(hamts a ha).1, (hamts a ha).2.1,
        by have := (hamts a ha).2.2; omega⟩)
    rw [createOpReturnSend_ok_eq vt tid tb amts ptb l hvt htid hl1 hl2 hptb hm]
    rfl

/-- Witness for C7: empty amounts fail, 19 amounts succeed, 20 amounts fail,
with a concrete 32-byte token id. -/
theorem c7_send_amount_count_witness :
    createOpReturnSend 0x01 (.raw (List.replicate 32 0)) [] =
      .error "send requires at least one amount" ∧
    (createOpReturnSend 0x01 (.raw (List.replicate 32 0))
      (List.replicate 19 1)).isOk = true ∧
    createOpReturnSend 0x01 (.raw (List.replicate 32 0)) (List.replicate 20 1) =
      .error "too many slp amounts" := by
  have htid : normalizeTokenId (.raw (List.replicate 32 0)) =
      .ok (List.replicate 32 0) := by
    rw [normalizeTokenId, if_neg (by rw [List.length_replicate]; norm_num)]
  have hrep : ∀ k : Nat, ∀ a ∈ List.replicate k (1:ℚ),
      a.den = 1 ∧ 0 ≤ a ∧ a.num ≤ 2 ^ 64 - 1 := by
    intro k a ha
    rw [List.eq_of_mem_replicate ha]
    exact ⟨by decide, by norm_num, by decide⟩
  refine ⟨?_, ?_, ?_⟩
  · exact (c7_send_amount_count 0x01 (.raw (List.replicate 32 0))
      (List.replicate 32 0) [] (by decide) htid (by simp)).1 rfl
  · exact (c7_send_amount_count 0x01 (.raw (List.replicate 32 0))
      (List.replicate 32 0) (List.replicate 19 1) (by decide) htid
      (hrep 19)).2.2 ⟨by rw [List.length_replicate]; norm_num, by rw [List.length_replicate]⟩
  · exact (c7_send_amount_count 0x01 (.raw (List.replicate 32 0))
      (List.replicate 32 0) (List.replicate 20 1) (by decide) htid
      (hrep 20)).2.1 (by rw [List.length_replicate]; norm_num)

/-- C10: `createOpReturnMint` imposes no child-variant restriction — with
`versionType = 0x41`, a valid 32-byte token id, a present `mintBatonVout` in
[2, 255] and any integer quantity in [0, 2^64 − 1], the call succeeds. -/
theorem c10_mint_child_unrestricted (tid : HashInput) (tb : List Nat)
    (v : Int) (q : Rat)
    (htid : normalizeTokenId tid = .ok tb)
    (hv : 2 ≤ v ∧ v ≤ 255)
    (hq : q.den = 1 ∧ 0 ≤ q ∧ q.num ≤ 2 ^ 64 - 1) :
    (createOpReturnMint 0x41 tid (some v) q).isOk = true := by
  obtain ⟨ptb, hptb⟩ := pushdata_ok_exists tb
    (by have := normalizeTokenId_length tid tb htid; omega)
  have hnum : 0 ≤ q.num := Rat.num_nonneg.2 hq.2.1
  have hqok := BNToInt64BE_ok q hq.1 hq.2.1 (by omega)
  have hlen : (hexPairsToBytes (padStart16 (hexStr q.num.toNat))).length = 8 :=
    (int64Bytes_spec _ (by omega)).1
  obtain ⟨pq, hpq⟩ := pushdata_ok_exists _ (by rw [hlen]; norm_num)
  rw [createOpReturnMint_ok_eq 0x41 tid tb (some v) q ptb _ pq (by decide)
    htid (by simp [mintBatonVoutBad]; omega) hptb hqok hpq]
  rfl

/-- Witness for C10: a child-version MINT with quantity 5 (≠ 1) and a present
baton vout succeeds. -/
theorem c10_mint_child_unrestricted_witness :
    (createOpReturnMint 0x41 (.raw (List.replicate 32 0)) (some 2) 5).isOk
      = true := by
  have htid : normalizeTokenId (.raw (List.replicate 32 0)) =
      .ok (List.replicate 32 0) := by
    rw [normalizeTokenId, if_neg (by rw [List.length_replicate]; norm_num)]
  exact c10_mint_child_unrestricted (.raw (List.replicate 32 0))
    (List.replicate 32 0) 2 5 htid (by norm_num)
    ⟨by decide, by norm_num, by decide⟩

/-- C8: in both `createOpReturnGenesis` and `createOpReturnMint`, a present
`mintBatonVout` outside [2, 255] fails with the out-of-range error (reachable
once the earlier field checks pass); and in a successful call the
`mintBatonVout` field is encoded as the push `[0x4C, 0x00]` of the empty
buffer when absent and as the push `[1, v]` of a single byte when present. -/
theorem c8_mintBatonVout_rules :
    (∀ (vt : Nat) (ticker nm url : List Nat) (dh : HashInput) (dhb : List Nat)
        (dec : Int) (v : Int) (q : Rat),
      vt ∈ ([0x01, 0x41, 0x81] : List Nat) →
      normalizeDocumentHash dh = .ok dhb →
      ¬ (dec < 0 ∨ dec > 9) →
      (v < 2 ∨ v > 255) →
      createOpReturnGenesis vt ticker nm url dh dec (some v) q =
        .error "mintBatonVout out of range (0x02 < > 0xFF)") ∧
    (∀ (vt : Nat) (tid : HashInput) (tb : List Nat) (v : Int) (q : Rat),
      vt ∈ ([0x01, 0x41, 0x81] : List Nat) →
      normalizeTokenId tid = .ok tb →
      (v < 2 ∨ v > 255) →
      createOpReturnMint vt tid (some v) q =
        .error "mintBatonVout out of range (0x02 < > 0xFF)") ∧
    mintBatonVoutPush none = [0x4C, 0x00] ∧
    (∀ v : Int, mintBatonVoutPush (some v) = [1, v.toNat]) ∧
    (∀ (vt : Nat) (ticker nm url : List Nat) (dh : HashInput) (dhb : List Nat)
        (dec : Int) (mbv : Option Int) (q : Rat) (pt pn pu ph qb pq : List Nat),
      vt ∈ ([0x01, 0x41, 0x81] : List Nat) →
      normalizeDocumentHash dh = .ok dhb →
      ¬ (dec < 0 ∨ dec > 9) →
      mintBatonVoutBad mbv = false →
      ¬ (vt = 0x41 ∧ q ≠ 1) → ¬ (vt = 0x41 ∧ dec ≠ 0) →
      ¬ (vt = 0x41 ∧ mbv ≠ none) →
      pushdata ticker = .ok pt → pushdata nm = .ok pn →
      pushdata url = .ok pu → pushdata dhb = .ok ph →
      BNToInt64BE q = .ok qb → pushdata qb = .ok pq →
      createOpReturnGenesis vt ticker nm url dh dec mbv q =
        .ok (0x6A :: ([4, 83, 76, 80, 0] ++ [1, vt] ++
          [7, 71, 69, 78, 69, 83, 73, 83] ++ pt ++ pn ++ pu ++ ph ++
          [1, dec.toNat] ++ mintBatonVoutPush mbv ++ pq))) ∧
    (∀ (vt : Nat) (tid : HashInput) (tb : List Nat) (mbv : Option Int)
        (q : Rat) (ptb qb pq : List Nat),
      vt ∈ ([0x01, 0x41, 0x81] : List Nat) →
      normalizeTokenId tid = .ok tb →
      mintBatonVoutBad mbv = false →
      pushdata tb = .ok ptb →
      BNToInt64BE q = .ok qb → pushdata qb = .ok pq →
      createOpReturnMint vt tid mbv q =
        .ok (0x6A :: ([4, 83, 76, 80, 0] ++ [1, vt] ++ [4, 77, 73, 78, 84] ++
          ptb ++ mintBatonVoutPush mbv ++ pq))) := by
  refine ⟨?_, ?_, rfl, fun v => rfl, ?_, ?_⟩
  · intro vt ticker nm url dh dhb dec v q hvt hdh hdec hv
    rw [createOpReturnGenesis, if_neg (by simp only [not_not]; exact hvt)]
    simp only [hdh]
    rw [if_neg hdec,
      if_pos (show mintBatonVoutBad (some v) = true by
        simp [mintBatonVoutBad]; omega)]
  · intro vt tid tb v q hvt htid hv
    rw [createOpReturnMint, if_neg (by simp only [not_not]; exact hvt)]
    simp only [htid]
    rw [if_pos (show mintBatonVoutBad (some v) = true by
      simp [mintBatonVoutBad]; omega)]
  · intro vt ticker nm url dh dhb dec mbv q pt pn pu ph qb pq hvt hdh hdec
      hmbv hc1 hc2 hc3 hpt hpn hpu hph hq hpq
    exact createOpReturnGenesis_ok_eq vt ticker nm url dh dhb dec mbv q
      pt pn pu ph qb pq hvt hdh hdec hmbv hc1 hc2 hc3 hpt hpn hpu hph hq hpq
  · intro vt tid tb mbv q ptb qb pq hvt htid hmbv hptb hq hpq
    exact createOpReturnMint_ok_eq vt tid tb mbv q ptb qb pq hvt htid hmbv
      hptb hq hpq

/-- Witness for C8: concrete out-of-range failures (baton vout 1 and 300) and
concrete successful GENESIS/MINT calls with the baton field encoded as
`[0x4C, 0x00]` (absent) and `[1, 2]` (present). -/
theorem c8_mintBatonVout_rules_witness :
    createOpReturnGenesis 0x01 [] [] [] (.raw []) 0 (some 1) 5 =
      .error "mintBatonVout out of range (0x02 < > 0xFF)" ∧
    createOpReturnMint 0x01 (.raw (List.replicate 32 0)) (some 300) 5 =
      .error "mintBatonVout out of range (0x02 < > 0xFF)" ∧
    createOpReturnGenesis 0x01 [] [] [] (.raw []) 0 none 1 =
      .ok (0x6A :: ([4, 83, 76, 80, 0] ++ [1, 0x01] ++
        [7, 71, 69, 78, 69, 83, 73, 83] ++ [0x4C, 0x00] ++ [0x4C, 0x00] ++
        [0x4C, 0x00] ++ [0x4C, 0x00] ++ [1, 0] ++ mintBatonVoutPush none ++
        [8, 0, 0, 0, 0, 0, 0, 0, 1])) ∧
    createOpReturnMint 0x01 (.raw (List.replicate 32 0)) (some 2) 1 =
      .ok (0x6A :: ([4, 83, 76, 80, 0] ++ [1, 0x01] ++ [4, 77, 73, 78, 84] ++
        (32 :: List.replicate 32 0) ++ mintBatonVoutPush (some 2) ++
        [8, 0, 0, 0, 0, 0, 0, 0, 1])) := by
  have htid : normalizeTokenId (.raw (List.replicate 32 0)) =
      .ok (List.replicate 32 0) := by
    rw [normalizeTokenId, if_neg (by rw [List.length_replicate]; norm_num)]
  have hptb : pushdata (List.replicate 32 0) = .ok (32 :: List.replicate 32 0) := by
    rw [pushdata_small _ (by rw [List.length_replicate]; norm_num)
      (by rw [List.length_replicate]; norm_num), List.length_replicate]
  refine ⟨?_, ?_, ?_, ?_⟩
  · exact c8_mintBatonVout_rules.1 0x01 [] [] [] (.raw []) [] 0 1 5
      (by decide) rfl (by norm_num) (by norm_num)
  · exact c8_mintBatonVout_rules.2.1 0x01 (.raw (List.replicate 32 0))
      (List.replicate 32 0) 300 5 (by decide) htid (by norm_num)
  · exact c8_mintBatonVout_rules.2.2.2.2.1 0x01 [] [] [] (.raw []) [] 0 none 1
      [0x4C, 0x00] [0x4C, 0x00] [0x4C, 0x00] [0x4C, 0x00]
      [0, 0, 0, 0, 0, 0, 0, 1] [8, 0, 0, 0, 0, 0, 0, 0, 1]
      (by decide) rfl (by norm_num) rfl (by norm_num) (by norm_num) (by simp)
      rfl rfl rfl rfl BNToInt64BE_one rfl
  · exact c8_mintBatonVout_rules.2.2.2.2.2 0x01 (.raw (List.replicate 32 0))
      (List.replicate 32 0) (some 2) 1 (32 :: List.replicate 32 0)
      [0, 0, 0, 0, 0, 0, 0, 1] [8, 0, 0, 0, 0, 0, 0, 0, 1]
      (by decide) htid (by decide) hptb BNToInt64BE_one rfl

/-- C9: every buffer returned by a successful `createOpReturnGenesis`,
`createOpReturnMint` or `createOpReturnSend` call begins with the fixed
7-byte prefix `6A 04 53 4C 50 00 01` followed by the versionType value as its
8th byte. -/
theorem c9_output_header :
    (∀ (vt : Nat) (ticker nm url : List Nat) (dh : HashInput) (dec : Int)
        (mbv : Option Int) (q : Rat) (out : List Nat),
      createOpReturnGenesis vt ticker nm url dh dec mbv q = .ok out →
      out.take 7 = [0x6A, 0x04, 0x53, 0x4C, 0x50, 0x00, 0x01] ∧
        out.get? 7 = some vt) ∧
    (∀ (vt : Nat) (tid : HashInput) (mbv : Option Int) (q : Rat)
        (out : List Nat),
      createOpReturnMint vt tid mbv q = .ok out →
      out.take 7 = [0x6A, 0x04, 0x53, 0x4C, 0x50, 0x00, 0x01] ∧
        out.get? 7 = some vt) ∧
    (∀ (vt : Nat) (tid : HashInput) (amts : List Rat) (out : List Nat),
      createOpReturnSend vt tid amts = .ok out →
      out.take 7 = [0x6A, 0x04, 0x53, 0x4C, 0x50, 0x00, 0x01] ∧
        out.get? 7 = some vt) :=
  ⟨genesisHeader_of_ok, mintHeader_of_ok, sendHeader_of_ok⟩

/-- Witness for C9: concrete successful GENESIS, MINT and SEND calls whose
outputs all start with `6A 04 53 4C 50 00 01` and carry the versionType as
the 8th byte. -/
theorem c9_output_header_witness :
    (∃ out, createOpReturnGenesis 0x01 [] [] [] (.raw []) 0 none 1 = .ok out ∧
      out.take 7 = [0x6A, 0x04, 0x53, 0x4C, 0x50, 0x00, 0x01] ∧
      out.get? 7 = some 0x01) ∧
    (∃ out, createOpReturnMint 0x01 (.raw (List.replicate 32 0)) none 1 =
        .ok out ∧
      out.take 7 = [0x6A, 0x04, 0x53, 0x4C, 0x50, 0x00, 0x01] ∧
      out.get? 7 = some 0x01) ∧
    (∃ out, createOpReturnSend 0x01 (.raw (List.replicate 32 0)) [1] =
        .ok out ∧
      out.take 7 = [0x6A, 0x04, 0x53, 0x4C, 0x50, 0x00, 0x01] ∧
      out.get? 7 = some 0x01) := by
  have htid : normalizeTokenId (.raw (List.replicate 32 0)) =
      .ok (List.replicate 32 0) := by
    rw [normalizeTokenId, if_neg (by rw [List.length_replicate]; norm_num)]
  have hptb : pushdata (List.replicate 32 0) = .ok (32 :: List.replicate 32 0) := by
    rw [pushdata_small _ (by rw [List.length_replicate]; norm_num)
      (by rw [List.length_replicate]; norm_num), List.length_replicate]
  have hmapm : List.mapM sendAmountPush [(1:Rat)] =
      .ok [[8, 0, 0, 0, 0, 0, 0, 0, 1]] := by
    rw [List.mapM_cons, List.mapM_nil]
    simp only [sendAmountPush, Bind.bind, Except.bind, BNToInt64BE_one]
    rfl
  have hg := createOpReturnGenesis_ok_eq 0x01 [] [] [] (.raw []) [] 0 none 1
    [0x4C, 0x00] [0x4C, 0x00] [0x4C, 0x00] [0x4C, 0x00]
    [0, 0, 0, 0, 0, 0, 0, 1] [8, 0, 0, 0, 0, 0, 0, 0, 1]
    (by decide) rfl (by norm_num) rfl (by norm_num) (by norm_num) (by simp)
    rfl rfl rfl rfl BNToInt64BE_one rfl
  have hmint := createOpReturnMint_ok_eq 0x01 (.raw (List.replicate 32 0))
    (List.replicate 32 0) none 1 (32 :: List.replicate 32 0)
    [0, 0, 0, 0, 0, 0, 0, 1] [8, 0, 0, 0, 0, 0, 0, 0, 1]
    (by decide) htid rfl hptb BNToInt64BE_one rfl
  have hsend := createOpReturnSend_ok_eq 0x01 (.raw (List.replicate 32 0))
    (List.replicate 32 0) [(1:Rat)] (32 :: List.replicate 32 0)
    [[8, 0, 0, 0, 0, 0, 0, 0, 1]]
    (by decide) htid (by norm_num) (by norm_num) hptb hmapm
  exact ⟨⟨_, hg, c9_output_header.1 _ _ _ _ _ _ _ _ _ hg⟩,
    ⟨_, hmint, c9_output_header.2.1 _ _ _ _ _ hmint⟩,
    ⟨_, hsend, c9_output_header.2.2 _ _ _ _ hsend⟩⟩
